import Mathlib

/-!
Verification of the multi-system personality conversion engine
(`src/lib/personality-engine.ts`, `src/lib/mbti-converter.ts`,
`src/lib/hexaco-calculator.ts`, plus the `CrossSystemValidator` and
`DarkTriadCalculator` modules). All numeric trait values are embedded
as rationals; JavaScript `Math.min`/`Math.max`/`Math.abs` become
`min`/`max`/`|·|` on `ℚ`.
-/

/-- The Big Five (OCEAN) trait record; the sole input of the pipeline. -/
structure BigFiveTraits where
  openness : ℚ
  conscientiousness : ℚ
  extraversion : ℚ
  agreeableness : ℚ
  neuroticism : ℚ
deriving DecidableEq

/-- Source `Object.values(bigFive)` in field-declaration order. -/
def traitValues (t : BigFiveTraits) : List ℚ :=
  [t.openness, t.conscientiousness, t.extraversion, t.agreeableness, t.neuroticism]

/-- One MBTI dimension: chosen pole and preference strength. -/
structure MBTIDimensionScore where
  preference : Char
  strength : ℚ
deriving DecidableEq

/-- An MBTI profile: the 4-letter type code (as a list of characters),
the four dimension records and an overall confidence. -/
structure MBTIProfile where
  type : List Char
  EI : MBTIDimensionScore
  SN : MBTIDimensionScore
  TF : MBTIDimensionScore
  JP : MBTIDimensionScore
  confidence : ℚ
deriving DecidableEq

/-- A HEXACO six-factor profile with confidence. -/
structure HEXACOProfile where
  honestyHumility : ℚ
  emotionality : ℚ
  extraversion : ℚ
  agreeableness : ℚ
  conscientiousness : ℚ
  openness : ℚ
  confidence : ℚ
deriving DecidableEq

/-- Risk level classification of a Dark Triad profile. -/
inductive RiskLevel where
  | LOW | MODERATE | HIGH | EXTREME
deriving DecidableEq

/-- A Dark Triad profile. -/
structure DarkTriadProfile where
  machiavellianism : ℚ
  narcissism : ℚ
  psychopathy : ℚ
  overallDarkness : ℚ
  riskLevel : RiskLevel
  confidence : ℚ
deriving DecidableEq

/-- The TCI temperament sub-record (7 fields). -/
structure TCITemperament where
  noveltySeekingCuriosity : ℚ
  impulsiveness : ℚ
  extravagance : ℚ
  disorderliness : ℚ
  harmAvoidance : ℚ
  rewardDependence : ℚ
  persistence : ℚ
deriving DecidableEq

/-- The TCI character sub-record (3 fields). -/
structure TCICharacter where
  selfDirectedness : ℚ
  cooperativeness : ℚ
  selfTranscendence : ℚ
deriving DecidableEq

/-- A TCI profile: temperament, character, confidence. -/
structure TCIProfile where
  temperament : TCITemperament
  character : TCICharacter
  confidence : ℚ
deriving DecidableEq

/-- The record returned by `PersonalityEngine.generateAllSystems`. -/
structure UnifiedSystems where
  bigFive : BigFiveTraits
  mbti : MBTIProfile
  hexaco : HEXACOProfile
  darkTriad : DarkTriadProfile
  tci : TCIProfile
deriving DecidableEq

/-- The record returned by `PersonalityEngine.validateSystemConsistency`. -/
structure ConsistencyResult where
  isConsistent : Bool
  consistencyScore : ℚ
  warnings : List String
deriving DecidableEq

namespace PersonalityEngine

/-- Source `PersonalityEngine.validateBigFive`: each of the five required traits
must be `>= 0` and `<= 100`. -/
def validateBigFive (traits : BigFiveTraits) : Bool :=
  (traitValues traits).all fun v => decide (0 ≤ v) && decide (v ≤ 100)

/-- Source `PersonalityEngine.calculateMBTIConfidence`. -/
def calculateMBTIConfidence (bigFive : BigFiveTraits) : ℚ :=
  let traitClarities : List ℚ :=
    [|bigFive.extraversion - 50|, |bigFive.openness - 50|,
     |bigFive.agreeableness - 50|, |bigFive.conscientiousness - 50|]
  let averageClarity := traitClarities.sum / 4
  min 100 (averageClarity * 2 + 20)

/-- Source `PersonalityEngine.convertBigFiveToMBTI`. -/
def convertBigFiveToMBTI (bigFive : BigFiveTraits) : MBTIProfile :=
  let extraversionScore := bigFive.extraversion
  let EI := if extraversionScore > 50 then 'E' else 'I'
  let opennessScore := bigFive.openness
  let SN := if opennessScore > 50 then 'N' else 'S'
  let agreeablenessScore := bigFive.agreeableness
  let TF := if agreeablenessScore > 50 then 'F' else 'T'
  let conscientiousnessScore := bigFive.conscientiousness
  let JP := if conscientiousnessScore > 50 then 'J' else 'P'
  { type := [EI, SN, TF, JP]
    EI := ⟨EI, |extraversionScore - 50| * 2⟩
    SN := ⟨SN, |opennessScore - 50| * 2⟩
    TF := ⟨TF, |agreeablenessScore - 50| * 2⟩
    JP := ⟨JP, |conscientiousnessScore - 50| * 2⟩
    confidence := calculateMBTIConfidence bigFive }

/-- Source `PersonalityEngine.calculateHonestyHumility`. -/
def calculateHonestyHumility (bigFive : BigFiveTraits) : ℚ :=
  let stability := 100 - bigFive.neuroticism
  let honestyBase := (stability + bigFive.agreeableness + bigFive.conscientiousness) / 3
  if bigFive.agreeableness < 20 then
    max 0 (honestyBase - 30)
  else
    min 100 honestyBase

/-- Source `PersonalityEngine.calculateEmotionality`. -/
def calculateEmotionality (bigFive : BigFiveTraits) : ℚ :=
  let baseEmotionality := bigFive.neuroticism
  let agreeablenessBoost := bigFive.agreeableness * 0.2
  min 100 (baseEmotionality + agreeablenessBoost)

/-- Source `PersonalityEngine.adjustHEXACOAgreeableness`. -/
def adjustHEXACOAgreeableness (bigFive : BigFiveTraits) : ℚ :=
  max 0 (bigFive.agreeableness - 10)

/-- Source `PersonalityEngine.calculateHEXACOConfidence`. -/
def calculateHEXACOConfidence (bigFive : BigFiveTraits) : ℚ :=
  let extremeScores := (traitValues bigFive).filter fun score =>
    decide (score < 20) || decide (score > 80)
  min 100 (70 + (extremeScores.length : ℚ) * 5)

/-- Source `PersonalityEngine.convertBigFiveToHEXACO`. -/
def convertBigFiveToHEXACO (bigFive : BigFiveTraits) : HEXACOProfile :=
  { honestyHumility := calculateHonestyHumility bigFive
    emotionality := calculateEmotionality bigFive
    extraversion := bigFive.extraversion
    agreeableness := adjustHEXACOAgreeableness bigFive
    conscientiousness := bigFive.conscientiousness
    openness := bigFive.openness
    confidence := calculateHEXACOConfidence bigFive }

/-- Source `PersonalityEngine.calculateMachiavellianism`. -/
def calculateMachiavellianism (bigFive : BigFiveTraits) : ℚ :=
  let lowAgreeableness := 100 - bigFive.agreeableness
  let lowNeuroticism := 100 - bigFive.neuroticism
  let strategicThinking := bigFive.openness * 0.3
  let machScore := lowAgreeableness * 0.6 + lowNeuroticism * 0.3 + strategicThinking * 0.1
  min 100 machScore

/-- Source `PersonalityEngine.calculateNarcissism`. -/
def calculateNarcissism (bigFive : BigFiveTraits) : ℚ :=
  let highExtraversion := bigFive.extraversion
  let lowAgreeableness := (100 - bigFive.agreeableness) * 0.7
  let lowNeuroticism := (100 - bigFive.neuroticism) * 0.5
  let narcScore := highExtraversion * 0.5 + lowAgreeableness * 0.3 + lowNeuroticism * 0.2
  min 100 narcScore

/-- Source `PersonalityEngine.calculatePsychopathy`. -/
def calculatePsychopathy (bigFive : BigFiveTraits) : ℚ :=
  let veryLowAgreeableness := (100 - bigFive.agreeableness) * 0.8
  let lowNeuroticism := (100 - bigFive.neuroticism) * 0.4
  let lowConscientiousness := (100 - bigFive.conscientiousness) * 0.3
  let psychScore := veryLowAgreeableness * 0.6 + lowNeuroticism * 0.25 + lowConscientiousness * 0.15
  min 100 psychScore

/-- Source `PersonalityEngine.calculateDarkTriadConfidence`. -/
def calculateDarkTriadConfidence (bigFive : BigFiveTraits) : ℚ :=
  let antiSocialIndicators : List ℚ :=
    [if bigFive.agreeableness < 30 then 20 else 0,
     if bigFive.neuroticism < 30 then 15 else 0,
     if bigFive.conscientiousness < 30 then 10 else 0]
  let baseConfidence : ℚ := 50
  let bonusConfidence := antiSocialIndicators.sum
  min 100 (baseConfidence + bonusConfidence)

/-- Source `PersonalityEngine.convertBigFiveToDarkTriad`. -/
def convertBigFiveToDarkTriad (bigFive : BigFiveTraits) : DarkTriadProfile :=
  { machiavellianism := calculateMachiavellianism bigFive
    narcissism := calculateNarcissism bigFive
    psychopathy := calculatePsychopathy bigFive
    overallDarkness := 0
    riskLevel := RiskLevel.LOW
    confidence := calculateDarkTriadConfidence bigFive }

/-- Source `PersonalityEngine.calculateNoveltySeekingCuriosity`. -/
def calculateNoveltySeekingCuriosity (bigFive : BigFiveTraits) : ℚ :=
  bigFive.openness * 0.7 + bigFive.extraversion * 0.3

/-- Source `PersonalityEngine.calculateImpulsiveness`. -/
def calculateImpulsiveness (bigFive : BigFiveTraits) : ℚ :=
  (100 - bigFive.conscientiousness) * 0.8 + bigFive.neuroticism * 0.2

/-- Source `PersonalityEngine.calculateExtravagance`. -/
def calculateExtravagance (bigFive : BigFiveTraits) : ℚ :=
  bigFive.extraversion * 0.6 + (100 - bigFive.conscientiousness) * 0.4

/-- Source `PersonalityEngine.calculateDisorderliness`. -/
def calculateDisorderliness (bigFive : BigFiveTraits) : ℚ :=
  100 - bigFive.conscientiousness

/-- Source `PersonalityEngine.calculateHarmAvoidance`. -/
def calculateHarmAvoidance (bigFive : BigFiveTraits) : ℚ :=
  bigFive.neuroticism * 0.7 + (100 - bigFive.extraversion) * 0.3

/-- Source `PersonalityEngine.calculateRewardDependence`. -/
def calculateRewardDependence (bigFive : BigFiveTraits) : ℚ :=
  bigFive.extraversion * 0.5 + bigFive.agreeableness * 0.5

/-- Source `PersonalityEngine.calculatePersistence`. -/
def calculatePersistence (bigFive : BigFiveTraits) : ℚ :=
  bigFive.conscientiousness * 0.8 + (100 - bigFive.neuroticism) * 0.2

/-- Source `PersonalityEngine.calculateSelfDirectedness`. -/
def calculateSelfDirectedness (bigFive : BigFiveTraits) : ℚ :=
  bigFive.conscientiousness * 0.6 + (100 - bigFive.neuroticism) * 0.4

/-- Source `PersonalityEngine.calculateCooperativeness`. -/
def calculateCooperativeness (bigFive : BigFiveTraits) : ℚ :=
  bigFive.agreeableness * 0.8 + (100 - bigFive.neuroticism) * 0.2

/-- Source `PersonalityEngine.calculateSelfTranscendence`. -/
def calculateSelfTranscendence (bigFive : BigFiveTraits) : ℚ :=
  bigFive.openness * 0.6 + bigFive.agreeableness * 0.4

/-- Source `PersonalityEngine.calculateVariance`. -/
def calculateVariance (values : List ℚ) : ℚ :=
  let mean := values.sum / (values.length : ℚ)
  let squaredDiffs := values.map fun val => (val - mean) ^ 2
  squaredDiffs.sum / (values.length : ℚ)

/-- Source `PersonalityEngine.calculateTCIConfidence`. -/
def calculateTCIConfidence (bigFive : BigFiveTraits) : ℚ :=
  let variance := calculateVariance (traitValues bigFive)
  max 60 (100 - variance)

/-- Source `PersonalityEngine.convertBigFiveToTCI`. -/
def convertBigFiveToTCI (bigFive : BigFiveTraits) : TCIProfile :=
  { temperament :=
      { noveltySeekingCuriosity := calculateNoveltySeekingCuriosity bigFive
        impulsiveness := calculateImpulsiveness bigFive
        extravagance := calculateExtravagance bigFive
        disorderliness := calculateDisorderliness bigFive
        harmAvoidance := calculateHarmAvoidance bigFive
        rewardDependence := calculateRewardDependence bigFive
        persistence := calculatePersistence bigFive }
    character :=
      { selfDirectedness := calculateSelfDirectedness bigFive
        cooperativeness := calculateCooperativeness bigFive
        selfTranscendence := calculateSelfTranscendence bigFive }
    confidence := calculateTCIConfidence bigFive }

/-- Source `PersonalityEngine.generateAllSystems`: validate, then assemble all
system profiles; throwing is modelled as `Except.error`. -/
def generateAllSystems (bigFive : BigFiveTraits) : Except String UnifiedSystems :=
  if !(validateBigFive bigFive) then
    Except.error "Invalid Big Five traits provided"
  else
    Except.ok
      { bigFive := bigFive
        mbti := convertBigFiveToMBTI bigFive
        hexaco := convertBigFiveToHEXACO bigFive
        darkTriad := convertBigFiveToDarkTriad bigFive
        tci := convertBigFiveToTCI bigFive }

/-- Source `PersonalityEngine.validateSystemConsistency`. -/
def validateSystemConsistency (systems : UnifiedSystems) : ConsistencyResult :=
  let mbtiExtraversion := systems.mbti.type.contains 'E'
  let bigFiveExtraversion := decide (systems.bigFive.extraversion > 50)
  let s1 : List String × ℚ :=
    if mbtiExtraversion ≠ bigFiveExtraversion then
      (["MBTI extraversion doesn\x27t match Big Five extraversion"], 100 - 10)
    else
      ([], 100)
  let hexacoHonesty := systems.hexaco.honestyHumility
  let darkTriadScore := (systems.darkTriad.machiavellianism + systems.darkTriad.narcissism +
    systems.darkTriad.psychopathy) / 3
  let s2 : List String × ℚ :=
    if hexacoHonesty > 70 ∧ darkTriadScore > 50 then
      (s1.1 ++ ["High honesty-humility conflicts with elevated dark triad scores"], s1.2 - 15)
    else
      s1
  let tciSelfDirectedness := systems.tci.character.selfDirectedness
  let tciImpulsiveness := systems.tci.temperament.impulsiveness
  let s3 : List String × ℚ :=
    if tciSelfDirectedness > 70 ∧ tciImpulsiveness > 70 then
      (s2.1 ++ ["High self-directedness conflicts with high impulsiveness"], s2.2 - 10)
    else
      s2
  { isConsistent := s3.1.length == 0
    consistencyScore := max 0 s3.2
    warnings := s3.1 }

end PersonalityEngine

namespace MBTIConverter

/-- Source `MBTIConverter.getConversionConfidence`. -/
def getConversionConfidence (bigFive : BigFiveTraits) : ℚ :=
  let traitClarities : List ℚ :=
    [|bigFive.extraversion - 50|, |bigFive.openness - 50|,
     |bigFive.agreeableness - 50|, |bigFive.conscientiousness - 50|]
  let averageClarity := traitClarities.sum / 4
  min 100 (averageClarity * 2 + 20)

/-- Source `MBTIConverter.convertBigFiveToMBTI`. -/
def convertBigFiveToMBTI (bigFive : BigFiveTraits) : MBTIProfile :=
  let EI := if bigFive.extraversion > 50 then 'E' else 'I'
  let SN := if bigFive.openness > 50 then 'N' else 'S'
  let TF := if bigFive.agreeableness > 50 then 'F' else 'T'
  let JP := if bigFive.conscientiousness > 50 then 'J' else 'P'
  { type := [EI, SN, TF, JP]
    EI := ⟨EI, |bigFive.extraversion - 50| * 2⟩
    SN := ⟨SN, |bigFive.openness - 50| * 2⟩
    TF := ⟨TF, |bigFive.agreeableness - 50| * 2⟩
    JP := ⟨JP, |bigFive.conscientiousness - 50| * 2⟩
    confidence := getConversionConfidence bigFive }

end MBTIConverter

namespace HEXACOCalculator

/-- Source `HEXACOCalculator.calculateHonestyHumility` (duplicate of the engine
formula, kept in its own module in the source). -/
def calculateHonestyHumility (bigFive : BigFiveTraits) : ℚ :=
  let stability := 100 - bigFive.neuroticism
  let honestyBase := (stability + bigFive.agreeableness + bigFive.conscientiousness) / 3
  if bigFive.agreeableness < 20 then
    max 0 (honestyBase - 30)
  else
    min 100 honestyBase

end HEXACOCalculator

namespace CrossSystemValidator

/-- Source `CrossSystemValidator.calculateMBTIConsistency`: re-derive the MBTI
type from the Big Five input and count matching letter positions 0..3
(JavaScript indexing past the end yields `undefined`, modelled by
`List.get?`). -/
def calculateMBTIConsistency (bigFive : BigFiveTraits) (mbti : MBTIProfile) : ℚ :=
  let derivedMBTI := MBTIConverter.convertBigFiveToMBTI bigFive
  let actual := mbti.type
  let derived := derivedMBTI.type
  let matchCount := ((List.range 4).filter fun i => actual.get? i = derived.get? i).length
  ((matchCount : ℚ) / 4) * 100

end CrossSystemValidator

namespace DarkTriadCalculator

/-- Source `DarkTriadCalculator.calculateMachiavellianism` (HEXACO-sourced). -/
def calculateMachiavellianism (hexaco : HEXACOProfile) : ℚ :=
  max 0 (100 - (hexaco.honestyHumility * 0.8 + hexaco.agreeableness * 0.2))

/-- Source `DarkTriadCalculator.calculateNarcissism` (HEXACO-sourced). -/
def calculateNarcissism (hexaco : HEXACOProfile) : ℚ :=
  max 0 ((100 - hexaco.honestyHumility) * 0.7 + hexaco.extraversion * 0.3)

/-- Source `DarkTriadCalculator.calculatePsychopathy` (HEXACO-sourced). -/
def calculatePsychopathy (hexaco : HEXACOProfile) : ℚ :=
  max 0 (100 - (hexaco.honestyHumility * 0.6 + hexaco.emotionality * 0.4))

/-- Source `DarkTriadCalculator.calculateFromHEXACO`. -/
def calculateFromHEXACO (hexaco : HEXACOProfile) : DarkTriadProfile :=
  { machiavellianism := calculateMachiavellianism hexaco
    narcissism := calculateNarcissism hexaco
    psychopathy := calculatePsychopathy hexaco
    overallDarkness := 0
    riskLevel := RiskLevel.LOW
    confidence := 80 }

end DarkTriadCalculator

/-- The validity predicate on Big Five inputs: all five fields in [0,100]. -/
def ValidTraits (t : BigFiveTraits) : Prop :=
  (0 ≤ t.openness ∧ t.openness ≤ 100) ∧
  (0 ≤ t.conscientiousness ∧ t.conscientiousness ≤ 100) ∧
  (0 ≤ t.extraversion ∧ t.extraversion ≤ 100) ∧
  (0 ≤ t.agreeableness ∧ t.agreeableness ≤ 100) ∧
  (0 ≤ t.neuroticism ∧ t.neuroticism ≤ 100)

instance (t : BigFiveTraits) : Decidable (ValidTraits t) := by
  unfold ValidTraits; infer_instance

/-- Source `validateBigFive` decides `ValidTraits`. -/
lemma validateBigFive_iff (t : BigFiveTraits) :
    PersonalityEngine.validateBigFive t = true ↔ ValidTraits t := by
  simp [PersonalityEngine.validateBigFive, traitValues, ValidTraits]

/-- The neutral input: every trait equal to 50. -/
def neutralTraits : BigFiveTraits :=
  { openness := 50, conscientiousness := 50, extraversion := 50,
    agreeableness := 50, neuroticism := 50 }

/-- Closed interval membership used by the range claims. -/
def InRange (x : ℚ) : Prop := 0 ≤ x ∧ x ≤ 100

instance (x : ℚ) : Decidable (InRange x) := by
  unfold InRange; infer_instance

/-- Every derived numeric field named by the range claim, for one
assembled `UnifiedSystems` record. -/
def UnifiedInRange (u : UnifiedSystems) : Prop :=
  InRange u.mbti.EI.strength ∧ InRange u.mbti.SN.strength ∧
  InRange u.mbti.TF.strength ∧ InRange u.mbti.JP.strength ∧
  InRange u.mbti.confidence ∧
  InRange u.hexaco.honestyHumility ∧ InRange u.hexaco.emotionality ∧
  InRange u.hexaco.extraversion ∧ InRange u.hexaco.agreeableness ∧
  InRange u.hexaco.conscientiousness ∧ InRange u.hexaco.openness ∧
  InRange u.hexaco.confidence ∧
  InRange u.darkTriad.machiavellianism ∧ InRange u.darkTriad.narcissism ∧
  InRange u.darkTriad.psychopathy ∧ InRange u.darkTriad.overallDarkness ∧
  InRange u.darkTriad.confidence ∧
  InRange u.tci.temperament.noveltySeekingCuriosity ∧
  InRange u.tci.temperament.impulsiveness ∧
  InRange u.tci.temperament.extravagance ∧
  InRange u.tci.temperament.disorderliness ∧
  InRange u.tci.temperament.harmAvoidance ∧
  InRange u.tci.temperament.rewardDependence ∧
  InRange u.tci.temperament.persistence ∧
  InRange u.tci.character.selfDirectedness ∧
  InRange u.tci.character.cooperativeness ∧
  InRange u.tci.character.selfTranscendence ∧
  InRange u.tci.confidence

instance (u : UnifiedSystems) : Decidable (UnifiedInRange u) := by
  unfold UnifiedInRange; infer_instance

/-- An MBTI dimension strength `|x - 50| * 2` stays in range. -/
lemma strength_inRange (x : ℚ) (h0 : 0 ≤ x) (h1 : x ≤ 100) :
    InRange (|x - 50| * 2) := by
  have habs : |x - 50| ≤ 50 := abs_le.mpr ⟨by linarith, by linarith⟩
  exact ⟨by positivity, by linarith⟩

/-- MBTI conversion confidence lies in `[20, 100]`. -/
lemma mbtiConfidence_bounds (t : BigFiveTraits) :
    20 ≤ PersonalityEngine.calculateMBTIConfidence t ∧
    PersonalityEngine.calculateMBTIConfidence t ≤ 100 := by
  unfold PersonalityEngine.calculateMBTIConfidence
  simp only [List.sum_cons, List.sum_nil]
  constructor
  · refine le_min (by norm_num) ?_
    have h1 := abs_nonneg (t.extraversion - 50)
    have h2 := abs_nonneg (t.openness - 50)
    have h3 := abs_nonneg (t.agreeableness - 50)
    have h4 := abs_nonneg (t.conscientiousness - 50)
    linarith
  · exact min_le_left _ _

/-- Honesty-Humility stays in range given input bounds. -/
lemma honestyHumility_inRange (t : BigFiveTraits)
    (hc0 : 0 ≤ t.conscientiousness) (hc1 : t.conscientiousness ≤ 100)
    (_ha1 : t.agreeableness ≤ 100)
    (hn0 : 0 ≤ t.neuroticism) (hn1 : t.neuroticism ≤ 100) :
    InRange (PersonalityEngine.calculateHonestyHumility t) := by
  unfold PersonalityEngine.calculateHonestyHumility
  split_ifs with hlt
  · exact ⟨le_max_left _ _, max_le (by norm_num) (by linarith)⟩
  · exact ⟨le_min (by norm_num) (by linarith), min_le_left _ _⟩

/-- Emotionality stays in range given input bounds. -/
lemma emotionality_inRange (t : BigFiveTraits)
    (ha0 : 0 ≤ t.agreeableness) (hn0 : 0 ≤ t.neuroticism) :
    InRange (PersonalityEngine.calculateEmotionality t) := by
  unfold PersonalityEngine.calculateEmotionality
  exact ⟨le_min (by norm_num) (by linarith), min_le_left _ _⟩

/-- Adjusted HEXACO agreeableness stays in range. -/
lemma adjustAgreeableness_inRange (t : BigFiveTraits) (ha1 : t.agreeableness ≤ 100) :
    InRange (PersonalityEngine.adjustHEXACOAgreeableness t) := by
  unfold PersonalityEngine.adjustHEXACOAgreeableness
  exact ⟨le_max_left _ _, max_le (by norm_num) (by linarith)⟩

/-- HEXACO confidence lies in `[70, 100]`. -/
lemma hexacoConfidence_bounds (t : BigFiveTraits) :
    70 ≤ PersonalityEngine.calculateHEXACOConfidence t ∧
    PersonalityEngine.calculateHEXACOConfidence t ≤ 100 := by
  unfold PersonalityEngine.calculateHEXACOConfidence
  constructor
  · refine le_min (by norm_num) ?_
    have h : (0 : ℚ) ≤ (((traitValues t).filter fun score =>
        decide (score < 20) || decide (score > 80)).length : ℚ) := Nat.cast_nonneg _
    linarith
  · exact min_le_left _ _

/-- Machiavellianism (Big-Five-sourced) stays in range. -/
lemma machiavellianism_inRange (t : BigFiveTraits)
    (ho0 : 0 ≤ t.openness) (ha1 : t.agreeableness ≤ 100) (hn1 : t.neuroticism ≤ 100) :
    InRange (PersonalityEngine.calculateMachiavellianism t) := by
  unfold PersonalityEngine.calculateMachiavellianism
  exact ⟨le_min (by norm_num) (by linarith), min_le_left _ _⟩

/-- Narcissism (Big-Five-sourced) stays in range. -/
lemma narcissism_inRange (t : BigFiveTraits)
    (he0 : 0 ≤ t.extraversion) (ha1 : t.agreeableness ≤ 100) (hn1 : t.neuroticism ≤ 100) :
    InRange (PersonalityEngine.calculateNarcissism t) := by
  unfold PersonalityEngine.calculateNarcissism
  exact ⟨le_min (by norm_num) (by linarith), min_le_left _ _⟩

/-- Psychopathy (Big-Five-sourced) stays in range. -/
lemma psychopathy_inRange (t : BigFiveTraits)
    (hc1 : t.conscientiousness ≤ 100) (ha1 : t.agreeableness ≤ 100) (hn1 : t.neuroticism ≤ 100) :
    InRange (PersonalityEngine.calculatePsychopathy t) := by
  unfold PersonalityEngine.calculatePsychopathy
  exact ⟨le_min (by norm_num) (by linarith), min_le_left _ _⟩

/-- Dark Triad confidence lies in `[50, 100]`. -/
lemma darkConfidence_bounds (t : BigFiveTraits) :
    50 ≤ PersonalityEngine.calculateDarkTriadConfidence t ∧
    PersonalityEngine.calculateDarkTriadConfidence t ≤ 100 := by
  unfold PersonalityEngine.calculateDarkTriadConfidence
  simp only [List.sum_cons, List.sum_nil]
  constructor
  · refine le_min (by norm_num) ?_
    split_ifs <;> norm_num
  · exact min_le_left _ _

/-- The variance of the five trait values is nonnegative. -/
lemma variance_nonneg (t : BigFiveTraits) :
    0 ≤ PersonalityEngine.calculateVariance (traitValues t) := by
  unfold PersonalityEngine.calculateVariance traitValues
  simp only [List.map_cons, List.map_nil, List.sum_cons, List.sum_nil, List.length_cons,
    List.length_nil]
  positivity

/-- TCI confidence lies in `[60, 100]`. -/
lemma tciConfidence_bounds (t : BigFiveTraits) :
    60 ≤ PersonalityEngine.calculateTCIConfidence t ∧
    PersonalityEngine.calculateTCIConfidence t ≤ 100 := by
  unfold PersonalityEngine.calculateTCIConfidence
  have hv := variance_nonneg t
  exact ⟨le_max_left _ _, max_le (by norm_num) (by linarith)⟩


/-- All ten TCI sub-fields stay in range for valid input. -/
lemma tci_fields_inRange (t : BigFiveTraits) (h : ValidTraits t) :
    InRange (PersonalityEngine.calculateNoveltySeekingCuriosity t) ∧
    InRange (PersonalityEngine.calculateImpulsiveness t) ∧
    InRange (PersonalityEngine.calculateExtravagance t) ∧
    InRange (PersonalityEngine.calculateDisorderliness t) ∧
    InRange (PersonalityEngine.calculateHarmAvoidance t) ∧
    InRange (PersonalityEngine.calculateRewardDependence t) ∧
    InRange (PersonalityEngine.calculatePersistence t) ∧
    InRange (PersonalityEngine.calculateSelfDirectedness t) ∧
    InRange (PersonalityEngine.calculateCooperativeness t) ∧
    InRange (PersonalityEngine.calculateSelfTranscendence t) := by
  obtain ⟨⟨ho0, ho1⟩, ⟨hc0, hc1⟩, ⟨he0, he1⟩, ⟨ha0, ha1⟩, ⟨hn0, hn1⟩⟩ := h
  unfold PersonalityEngine.calculateNoveltySeekingCuriosity
    PersonalityEngine.calculateImpulsiveness PersonalityEngine.calculateExtravagance
    PersonalityEngine.calculateDisorderliness PersonalityEngine.calculateHarmAvoidance
    PersonalityEngine.calculateRewardDependence PersonalityEngine.calculatePersistence
    PersonalityEngine.calculateSelfDirectedness PersonalityEngine.calculateCooperativeness
    PersonalityEngine.calculateSelfTranscendence InRange
  refine ⟨⟨?_, ?_⟩, ⟨?_, ?_⟩, ⟨?_, ?_⟩, ⟨?_, ?_⟩, ⟨?_, ?_⟩, ⟨?_, ?_⟩, ⟨?_, ?_⟩,
    ⟨?_, ?_⟩, ⟨?_, ?_⟩, ⟨?_, ?_⟩⟩ <;> linarith

/-- C1: for every BigFiveTraits input whose five fields each lie in [0,100],
`generateAllSystems` succeeds and every derived numeric field of the result
lies in [0,100]: the four MBTI dimension strengths and MBTI confidence, the
six HEXACO factor values and HEXACO confidence, the three Dark Triad
sub-scores, overallDarkness and Dark Triad confidence, the seven TCI
temperament fields, the three TCI character fields, and TCI confidence. -/
theorem generateAllSystems_fields_inRange (t : BigFiveTraits) (h : ValidTraits t) :
    ∃ u, PersonalityEngine.generateAllSystems t = Except.ok u ∧ UnifiedInRange u := by
  have hv : PersonalityEngine.validateBigFive t = true := (validateBigFive_iff t).mpr h
  obtain ⟨T1, T2, T3, T4, T5, T6, T7, T8, T9, T10⟩ := tci_fields_inRange t h
  obtain ⟨⟨ho0, ho1⟩, ⟨hc0, hc1⟩, ⟨he0, he1⟩, ⟨ha0, ha1⟩, ⟨hn0, hn1⟩⟩ := h
  refine ⟨{ bigFive := t
            mbti := PersonalityEngine.convertBigFiveToMBTI t
            hexaco := PersonalityEngine.convertBigFiveToHEXACO t
            darkTriad := PersonalityEngine.convertBigFiveToDarkTriad t
            tci := PersonalityEngine.convertBigFiveToTCI t }, ?_, ?_⟩
  · simp [PersonalityEngine.generateAllSystems, hv]
  · exact ⟨strength_inRange t.extraversion he0 he1,
      strength_inRange t.openness ho0 ho1,
      strength_inRange t.agreeableness ha0 ha1,
      strength_inRange t.conscientiousness hc0 hc1,
      ⟨le_trans (by norm_num) (mbtiConfidence_bounds t).1, (mbtiConfidence_bounds t).2⟩,
      honestyHumility_inRange t hc0 hc1 ha1 hn0 hn1,
      emotionality_inRange t ha0 hn0,
      ⟨he0, he1⟩,
      adjustAgreeableness_inRange t ha1,
      ⟨hc0, hc1⟩,
      ⟨ho0, ho1⟩,
      ⟨le_trans (by norm_num) (hexacoConfidence_bounds t).1, (hexacoConfidence_bounds t).2⟩,
      machiavellianism_inRange t ho0 ha1 hn1,
      narcissism_inRange t he0 ha1 hn1,
      psychopathy_inRange t hc1 ha1 hn1,
      ⟨le_refl 0, by show (0 : ℚ) ≤ 100; norm_num⟩,
      ⟨le_trans (by norm_num) (darkConfidence_bounds t).1, (darkConfidence_bounds t).2⟩,
      T1, T2, T3, T4, T5, T6, T7, T8, T9, T10,
      ⟨le_trans (by norm_num) (tciConfidence_bounds t).1, (tciConfidence_bounds t).2⟩⟩

/-- Witness for the range theorem at the neutral all-50 input. -/
theorem generateAllSystems_fields_inRange_witness :
    ValidTraits neutralTraits ∧
    ∃ u, PersonalityEngine.generateAllSystems neutralTraits = Except.ok u ∧ UnifiedInRange u :=
  ⟨by decide, generateAllSystems_fields_inRange neutralTraits (by decide)⟩

/-- C8: confidence floors and caps — TCI confidence is never below 60,
MBTI confidence lies in [20,100], HEXACO confidence never exceeds 100. -/
theorem confidence_floors_caps (t : BigFiveTraits) (_h : ValidTraits t) :
    60 ≤ PersonalityEngine.calculateTCIConfidence t ∧
    (20 ≤ PersonalityEngine.calculateMBTIConfidence t ∧
      PersonalityEngine.calculateMBTIConfidence t ≤ 100) ∧
    PersonalityEngine.calculateHEXACOConfidence t ≤ 100 :=
  ⟨(tciConfidence_bounds t).1, mbtiConfidence_bounds t, (hexacoConfidence_bounds t).2⟩

/-- Witness for the confidence floors/caps theorem at the neutral input. -/
theorem confidence_floors_caps_witness :
    ValidTraits neutralTraits ∧
    (60 ≤ PersonalityEngine.calculateTCIConfidence neutralTraits ∧
    (20 ≤ PersonalityEngine.calculateMBTIConfidence neutralTraits ∧
      PersonalityEngine.calculateMBTIConfidence neutralTraits ≤ 100) ∧
    PersonalityEngine.calculateHEXACOConfidence neutralTraits ≤ 100) :=
  ⟨by decide, confidence_floors_caps neutralTraits (by decide)⟩

/-- C2: `generateAllSystems` fails (with the invalid-input error) exactly when
`validateBigFive` returns false, i.e. exactly when some field is outside
[0,100]; no partial result is returned on failure, and on success the result
contains the unchanged input plus the four derived profiles. -/
theorem generateAllSystems_validation (t : BigFiveTraits) :
    (PersonalityEngine.validateBigFive t = false ↔ ¬ ValidTraits t) ∧
    ((∃ e, PersonalityEngine.generateAllSystems t = Except.error e) ↔ ¬ ValidTraits t) ∧
    (∀ e, PersonalityEngine.generateAllSystems t = Except.error e →
      e = "Invalid Big Five traits provided") ∧
    (ValidTraits t →
      PersonalityEngine.generateAllSystems t = Except.ok
        { bigFive := t
          mbti := PersonalityEngine.convertBigFiveToMBTI t
          hexaco := PersonalityEngine.convertBigFiveToHEXACO t
          darkTriad := PersonalityEngine.convertBigFiveToDarkTriad t
          tci := PersonalityEngine.convertBigFiveToTCI t }) := by
  have hiff := validateBigFive_iff t
  refine ⟨?_, ?_, ?_, ?_⟩
  · rw [← hiff]
    cases hb : PersonalityEngine.validateBigFive t <;> simp [hb]
  · by_cases h : ValidTraits t
    · simp [PersonalityEngine.generateAllSystems, hiff.mpr h, h]
    · have hb : PersonalityEngine.validateBigFive t = false := by
        rcases Bool.eq_false_or_eq_true (PersonalityEngine.validateBigFive t) with hb | hb
        · exact absurd (hiff.mp hb) h
        · exact hb
      simp [PersonalityEngine.generateAllSystems, hb, h]
  · intro e he
    by_cases h : ValidTraits t
    · simp [PersonalityEngine.generateAllSystems, hiff.mpr h] at he
    · have hb : PersonalityEngine.validateBigFive t = false := by
        rcases Bool.eq_false_or_eq_true (PersonalityEngine.validateBigFive t) with hb | hb
        · exact absurd (hiff.mp hb) h
        · exact hb
      simp [PersonalityEngine.generateAllSystems, hb] at he
      exact he.symm
  · intro h
    simp [PersonalityEngine.generateAllSystems, hiff.mpr h]

/-- C5 counterexample: the neutral all-50 input does not produce MBTI type
ISTJ (conscientiousness = 50 takes the else branch, letter P). -/
theorem mbti_neutral_not_ISTJ :
    ¬ ((PersonalityEngine.convertBigFiveToMBTI neutralTraits).type = ['I', 'S', 'T', 'J'] ∧
       (PersonalityEngine.convertBigFiveToMBTI neutralTraits).EI.strength = 0 ∧
       (PersonalityEngine.convertBigFiveToMBTI neutralTraits).SN.strength = 0 ∧
       (PersonalityEngine.convertBigFiveToMBTI neutralTraits).TF.strength = 0 ∧
       (PersonalityEngine.convertBigFiveToMBTI neutralTraits).JP.strength = 0 ∧
       (PersonalityEngine.convertBigFiveToMBTI neutralTraits).confidence = 20) := by
  intro hcl
  have htype : (PersonalityEngine.convertBigFiveToMBTI neutralTraits).type = ['I', 'S', 'T', 'P'] := by
    norm_num [PersonalityEngine.convertBigFiveToMBTI, neutralTraits]
  rw [htype] at hcl
  exact absurd hcl.1 (by decide)

/-- C5 amended: the neutral all-50 input yields MBTI type ISTP, every
dimension strength 0 and confidence 20, in both converter modules. -/
theorem mbti_neutral_profile :
    (PersonalityEngine.convertBigFiveToMBTI neutralTraits).type = ['I', 'S', 'T', 'P'] ∧
    (PersonalityEngine.convertBigFiveToMBTI neutralTraits).EI.strength = 0 ∧
    (PersonalityEngine.convertBigFiveToMBTI neutralTraits).SN.strength = 0 ∧
    (PersonalityEngine.convertBigFiveToMBTI neutralTraits).TF.strength = 0 ∧
    (PersonalityEngine.convertBigFiveToMBTI neutralTraits).JP.strength = 0 ∧
    (PersonalityEngine.convertBigFiveToMBTI neutralTraits).confidence = 20 ∧
    (MBTIConverter.convertBigFiveToMBTI neutralTraits).type = ['I', 'S', 'T', 'P'] ∧
    (MBTIConverter.convertBigFiveToMBTI neutralTraits).confidence = 20 := by
  norm_num [PersonalityEngine.convertBigFiveToMBTI, MBTIConverter.convertBigFiveToMBTI,
    PersonalityEngine.calculateMBTIConfidence, MBTIConverter.getConversionConfidence,
    neutralTraits]

/-- C6: a source trait exactly equal to 50 resolves its MBTI dimension to
the low pole, in both converter modules: extraversion 50 gives I, openness
50 gives S, agreeableness 50 gives T, conscientiousness 50 gives P. -/
theorem mbti_boundary_low_pole (t : BigFiveTraits) (_h : ValidTraits t) :
    (t.extraversion = 50 →
      (PersonalityEngine.convertBigFiveToMBTI t).EI.preference = 'I' ∧
      (MBTIConverter.convertBigFiveToMBTI t).EI.preference = 'I') ∧
    (t.openness = 50 →
      (PersonalityEngine.convertBigFiveToMBTI t).SN.preference = 'S' ∧
      (MBTIConverter.convertBigFiveToMBTI t).SN.preference = 'S') ∧
    (t.agreeableness = 50 →
      (PersonalityEngine.convertBigFiveToMBTI t).TF.preference = 'T' ∧
      (MBTIConverter.convertBigFiveToMBTI t).TF.preference = 'T') ∧
    (t.conscientiousness = 50 →
      (PersonalityEngine.convertBigFiveToMBTI t).JP.preference = 'P' ∧
      (MBTIConverter.convertBigFiveToMBTI t).JP.preference = 'P') := by
  refine ⟨fun he => ?_, fun ho => ?_, fun ha => ?_, fun hc => ?_⟩
  · constructor <;>
      simp [PersonalityEngine.convertBigFiveToMBTI, MBTIConverter.convertBigFiveToMBTI, he]
  · constructor <;>
      simp [PersonalityEngine.convertBigFiveToMBTI, MBTIConverter.convertBigFiveToMBTI, ho]
  · constructor <;>
      simp [PersonalityEngine.convertBigFiveToMBTI, MBTIConverter.convertBigFiveToMBTI, ha]
  · constructor <;>
      simp [PersonalityEngine.convertBigFiveToMBTI, MBTIConverter.convertBigFiveToMBTI, hc]

/-- Witness for the boundary tie-break theorem at the neutral input. -/
theorem mbti_boundary_low_pole_witness :
    ValidTraits neutralTraits ∧
    ((PersonalityEngine.convertBigFiveToMBTI neutralTraits).EI.preference = 'I' ∧
     (MBTIConverter.convertBigFiveToMBTI neutralTraits).EI.preference = 'I') :=
  ⟨by decide, (mbti_boundary_low_pole neutralTraits (by decide)).1 rfl⟩

/-- Formula the specification states for Honesty-Humility: average of
(100 - neuroticism), agreeableness, conscientiousness; 30 subtracted and
floored at 0 when agreeableness < 20; capped at 100 otherwise. -/
def honestyHumilitySpec (t : BigFiveTraits) : ℚ :=
  let avg := ((100 - t.neuroticism) + t.agreeableness + t.conscientiousness) / 3
  if t.agreeableness < 20 then max 0 (avg - 30) else min 100 avg

/-- Concrete scenario traits: agreeableness 10, neuroticism 10,
conscientiousness 10 (openness and extraversion neutral). -/
def scenarioTraits : BigFiveTraits :=
  { openness := 50, conscientiousness := 10, extraversion := 50,
    agreeableness := 10, neuroticism := 10 }

/-- C7: both Honesty-Humility implementations match the specified formula,
and with agreeableness = neuroticism = conscientiousness = 10 the result is
max(0, 110/3 - 30) = 20/3. -/
theorem honestyHumility_spec_correct (t : BigFiveTraits) (_h : ValidTraits t) :
    PersonalityEngine.calculateHonestyHumility t = honestyHumilitySpec t ∧
    HEXACOCalculator.calculateHonestyHumility t = honestyHumilitySpec t ∧
    (t.agreeableness = 10 → t.neuroticism = 10 → t.conscientiousness = 10 →
      PersonalityEngine.calculateHonestyHumility t = 20 / 3) := by
  refine ⟨rfl, rfl, fun ha hn hc => ?_⟩
  unfold PersonalityEngine.calculateHonestyHumility
  rw [ha, hn, hc]
  norm_num

/-- Witness for the Honesty-Humility theorem at the scenario input. -/
theorem honestyHumility_spec_correct_witness :
    ValidTraits scenarioTraits ∧
    PersonalityEngine.calculateHonestyHumility scenarioTraits = 20 / 3 :=
  ⟨by decide, (honestyHumility_spec_correct scenarioTraits (by decide)).2.2 rfl rfl rfl⟩

/-- C10: the placeholder fields are constant — the direct converter always
returns overallDarkness 0 and riskLevel LOW, and the HEXACO-sourced
converter additionally always returns confidence 80. -/
theorem darkTriad_placeholder_fields (t : BigFiveTraits) (h : HEXACOProfile) :
    (PersonalityEngine.convertBigFiveToDarkTriad t).overallDarkness = 0 ∧
    (PersonalityEngine.convertBigFiveToDarkTriad t).riskLevel = RiskLevel.LOW ∧
    (DarkTriadCalculator.calculateFromHEXACO h).overallDarkness = 0 ∧
    (DarkTriadCalculator.calculateFromHEXACO h).riskLevel = RiskLevel.LOW ∧
    (DarkTriadCalculator.calculateFromHEXACO h).confidence = 80 :=
  ⟨rfl, rfl, rfl, rfl, rfl⟩

/-- C4 counterexample: at the valid neutral all-50 input the direct
Big-Five Dark Triad conversion and the HEXACO-sourced variant applied to
the derived HEXACO profile do not agree on the three sub-scores. -/
theorem darkTriad_variants_disagree :
    ValidTraits neutralTraits ∧
    ¬ ((PersonalityEngine.convertBigFiveToDarkTriad neutralTraits).machiavellianism =
        (DarkTriadCalculator.calculateFromHEXACO
          (PersonalityEngine.convertBigFiveToHEXACO neutralTraits)).machiavellianism ∧
       (PersonalityEngine.convertBigFiveToDarkTriad neutralTraits).narcissism =
        (DarkTriadCalculator.calculateFromHEXACO
          (PersonalityEngine.convertBigFiveToHEXACO neutralTraits)).narcissism ∧
       (PersonalityEngine.convertBigFiveToDarkTriad neutralTraits).psychopathy =
        (DarkTriadCalculator.calculateFromHEXACO
          (PersonalityEngine.convertBigFiveToHEXACO neutralTraits)).psychopathy) := by
  refine ⟨by decide, fun hcl => ?_⟩
  have hd : (PersonalityEngine.convertBigFiveToDarkTriad neutralTraits).machiavellianism = 46.5 := by
    norm_num [PersonalityEngine.convertBigFiveToDarkTriad,
      PersonalityEngine.calculateMachiavellianism, neutralTraits]
  have hh : (DarkTriadCalculator.calculateFromHEXACO
      (PersonalityEngine.convertBigFiveToHEXACO neutralTraits)).machiavellianism = 52 := by
    norm_num [DarkTriadCalculator.calculateFromHEXACO,
      DarkTriadCalculator.calculateMachiavellianism,
      PersonalityEngine.convertBigFiveToHEXACO, PersonalityEngine.calculateHonestyHumility,
      PersonalityEngine.adjustHEXACOAgreeableness, neutralTraits]
  rw [hd, hh] at hcl
  exact absurd hcl.1 (by norm_num)

/-- C4 amended: the direct and HEXACO-sourced Dark Triad converters both
exist but are not numerically consistent: at the neutral all-50 input the
direct variant yields (46.5, 40.5, 31.25) while the HEXACO-sourced variant
applied to the derived HEXACO profile yields (52, 50, 46). -/
theorem darkTriad_variants_values :
    (PersonalityEngine.convertBigFiveToDarkTriad neutralTraits).machiavellianism = 46.5 ∧
    (PersonalityEngine.convertBigFiveToDarkTriad neutralTraits).narcissism = 40.5 ∧
    (PersonalityEngine.convertBigFiveToDarkTriad neutralTraits).psychopathy = 31.25 ∧
    (DarkTriadCalculator.calculateFromHEXACO
      (PersonalityEngine.convertBigFiveToHEXACO neutralTraits)).machiavellianism = 52 ∧
    (DarkTriadCalculator.calculateFromHEXACO
      (PersonalityEngine.convertBigFiveToHEXACO neutralTraits)).narcissism = 50 ∧
    (DarkTriadCalculator.calculateFromHEXACO
      (PersonalityEngine.convertBigFiveToHEXACO neutralTraits)).psychopathy = 46 := by
  norm_num [PersonalityEngine.convertBigFiveToDarkTriad,
    PersonalityEngine.calculateMachiavellianism, PersonalityEngine.calculateNarcissism,
    PersonalityEngine.calculatePsychopathy, DarkTriadCalculator.calculateFromHEXACO,
    DarkTriadCalculator.calculateMachiavellianism, DarkTriadCalculator.calculateNarcissism,
    DarkTriadCalculator.calculatePsychopathy, PersonalityEngine.convertBigFiveToHEXACO,
    PersonalityEngine.calculateHonestyHumility, PersonalityEngine.calculateEmotionality,
    PersonalityEngine.adjustHEXACOAgreeableness, neutralTraits]

/-- C9: the MBTI consistency metric equals 25 times the number of letter
positions (out of 4) where the supplied type matches the re-derived type,
its value is always one of 0, 25, 50, 75, 100, and feeding back the
converter output for the same input always yields exactly 100. -/
theorem calculateMBTIConsistency_spec (t : BigFiveTraits) (m : MBTIProfile) :
    CrossSystemValidator.calculateMBTIConsistency t m =
      25 * (((List.range 4).filter fun i =>
        m.type.get? i = (MBTIConverter.convertBigFiveToMBTI t).type.get? i).length : ℚ) ∧
    (CrossSystemValidator.calculateMBTIConsistency t m = 0 ∨
     CrossSystemValidator.calculateMBTIConsistency t m = 25 ∨
     CrossSystemValidator.calculateMBTIConsistency t m = 50 ∨
     CrossSystemValidator.calculateMBTIConsistency t m = 75 ∨
     CrossSystemValidator.calculateMBTIConsistency t m = 100) ∧
    CrossSystemValidator.calculateMBTIConsistency t (MBTIConverter.convertBigFiveToMBTI t) = 100 := by
  have h25 : CrossSystemValidator.calculateMBTIConsistency t m =
      25 * (((List.range 4).filter fun i =>
        m.type.get? i = (MBTIConverter.convertBigFiveToMBTI t).type.get? i).length : ℚ) := by
    unfold CrossSystemValidator.calculateMBTIConsistency
    ring
  refine ⟨h25, ?_, ?_⟩
  · rw [h25]
    have hn : ((List.range 4).filter fun i =>
        m.type.get? i = (MBTIConverter.convertBigFiveToMBTI t).type.get? i).length ≤ 4 := by
      calc ((List.range 4).filter fun i =>
          m.type.get? i = (MBTIConverter.convertBigFiveToMBTI t).type.get? i).length
          ≤ (List.range 4).length := List.length_filter_le _ _
        _ = 4 := by simp
    set k := ((List.range 4).filter fun i =>
        m.type.get? i = (MBTIConverter.convertBigFiveToMBTI t).type.get? i).length with hk
    interval_cases k <;> norm_num
  · unfold CrossSystemValidator.calculateMBTIConsistency
    have h4 : List.range 4 = [0, 1, 2, 3] := rfl
    rw [h4]
    simp [List.filter]

/-- Well-formedness of a 4-letter MBTI type code: one letter from each of
the four dimension alphabets, in fixed order. -/
def isWellFormedMBTIType : List Char → Bool
  | [a, b, c, d] =>
    (a == 'E' || a == 'I') && (b == 'S' || b == 'N') &&
    (c == 'T' || c == 'F') && (d == 'J' || d == 'P')
  | _ => false

/-- For a well-formed type code, containing the letter E is the same as
the E/I letter (the first letter) being E. -/
lemma contains_E_eq_head (l : List Char) (h : isWellFormedMBTIType l = true) :
    l.contains 'E' = (l.headD 'I' == 'E') := by
  rcases l with _ | ⟨a, _ | ⟨b, _ | ⟨c, _ | ⟨d, _ | ⟨e, tl⟩⟩⟩⟩⟩ <;>
    simp [isWellFormedMBTIType] at h
  obtain ⟨⟨⟨ha, hb⟩, hc⟩, hd⟩ := h
  rcases ha with rfl | rfl <;> rcases hb with rfl | rfl <;>
    rcases hc with rfl | rfl <;> rcases hd with rfl | rfl <;> rfl

/-- Rule A of the consistency claim: the MBTI type code E/I letter
disagrees with whether Big-Five extraversion exceeds 50. -/
def ruleAViolated (s : UnifiedSystems) : Prop :=
  (s.mbti.type.headD 'I' == 'E') ≠ decide (s.bigFive.extraversion > 50)

instance (s : UnifiedSystems) : Decidable (ruleAViolated s) := by
  unfold ruleAViolated; infer_instance

/-- Rule B of the consistency claim: HEXACO honesty-humility above 70
together with a mean Dark Triad sub-score above 50. -/
def ruleBViolated (s : UnifiedSystems) : Prop :=
  s.hexaco.honestyHumility > 70 ∧
  (s.darkTriad.machiavellianism + s.darkTriad.narcissism + s.darkTriad.psychopathy) / 3 > 50

instance (s : UnifiedSystems) : Decidable (ruleBViolated s) := by
  unfold ruleBViolated; infer_instance

/-- Rule C of the consistency claim: TCI self-directedness above 70
together with TCI impulsiveness above 70. -/
def ruleCViolated (s : UnifiedSystems) : Prop :=
  s.tci.character.selfDirectedness > 70 ∧ s.tci.temperament.impulsiveness > 70

instance (s : UnifiedSystems) : Decidable (ruleCViolated s) := by
  unfold ruleCViolated; infer_instance

/-- Warnings predicted by the claim, in rule evaluation order A, B, C. -/
def ruleWarnings (s : UnifiedSystems) : List String :=
  (if ruleAViolated s then ["MBTI extraversion doesn\x27t match Big Five extraversion"] else []) ++
  (if ruleBViolated s then ["High honesty-humility conflicts with elevated dark triad scores"] else []) ++
  (if ruleCViolated s then ["High self-directedness conflicts with high impulsiveness"] else [])

/-- Total score penalty predicted by the claim: 10 for rule A, 15 for
rule B, 10 for rule C. -/
def rulePenalty (s : UnifiedSystems) : ℚ :=
  (if ruleAViolated s then 10 else 0) + (if ruleBViolated s then 15 else 0) +
  (if ruleCViolated s then 10 else 0)

/-- C3: `validateSystemConsistency` evaluates exactly rules A, B, C in that
order starting from a score of 100 (penalties 10, 15, 10), clamps the score
at a floor of 0, returns the warnings in rule order, and sets isConsistent
exactly when the warnings list is empty. -/
theorem validateSystemConsistency_spec (s : UnifiedSystems)
    (h : isWellFormedMBTIType s.mbti.type = true) :
    PersonalityEngine.validateSystemConsistency s =
      { isConsistent := (ruleWarnings s).isEmpty
        consistencyScore := max 0 (100 - rulePenalty s)
        warnings := ruleWarnings s } := by
  have hA := contains_E_eq_head s.mbti.type h
  unfold PersonalityEngine.validateSystemConsistency ruleWarnings rulePenalty ruleAViolated
    ruleBViolated ruleCViolated
  rw [hA]
  dsimp only
  split_ifs <;> simp <;> norm_num

/-- A concrete unified record violating all three coherence rules. -/
def consistencyWitnessSystems : UnifiedSystems :=
  { bigFive := { openness := 50, conscientiousness := 50, extraversion := 80,
                 agreeableness := 50, neuroticism := 50 }
    mbti := { type := ['I', 'S', 'T', 'P'], EI := ⟨'I', 0⟩, SN := ⟨'S', 0⟩,
              TF := ⟨'T', 0⟩, JP := ⟨'P', 0⟩, confidence := 20 }
    hexaco := { honestyHumility := 80, emotionality := 50, extraversion := 80,
                agreeableness := 40, conscientiousness := 50, openness := 50, confidence := 70 }
    darkTriad := { machiavellianism := 60, narcissism := 60, psychopathy := 60,
                   overallDarkness := 0, riskLevel := RiskLevel.LOW, confidence := 50 }
    tci := { temperament := ⟨50, 80, 50, 50, 50, 50, 50⟩,
             character := ⟨80, 50, 50⟩, confidence := 60 } }

/-- Witness for the consistency characterization at a record that fires
all three rules. -/
theorem validateSystemConsistency_spec_witness :
    isWellFormedMBTIType consistencyWitnessSystems.mbti.type = true ∧
    PersonalityEngine.validateSystemConsistency consistencyWitnessSystems =
      { isConsistent := (ruleWarnings consistencyWitnessSystems).isEmpty
        consistencyScore := max 0 (100 - rulePenalty consistencyWitnessSystems)
        warnings := ruleWarnings consistencyWitnessSystems } :=
  ⟨by decide, validateSystemConsistency_spec consistencyWitnessSystems (by decide)⟩
